import Mathlib

/-!
Shallow embedding of `src/index.ts` of `mcp-server-insumer`, a Model Context
Protocol adapter that validates tool inputs with zod schemas, forwards one
HTTP request per invocation to a fixed API base URL, and relays the JSON
response envelope back to the caller.

JSON values are modelled by the inductive type `Json` (numbers as `Rat`,
mirroring JavaScript numbers on the integer/decimal inputs the schemas
accept).  The network is modelled as an oracle `Request → FetchResult`; a
`FetchResult.fail` stands for a transport failure or a response body that
`res.json()` cannot parse (both reject the promise in the source).
-/

set_option maxRecDepth 10000

/-- A JSON value as produced by `JSON.parse` / consumed by `JSON.stringify`.
Objects are association lists with the (unique) keys in insertion order. -/
inductive Json where
  | null : Json
  | bool : Bool → Json
  | num : Rat → Json
  | str : String → Json
  | arr : List Json → Json
  | obj : List (String × Json) → Json
deriving Repr

/-- First binding of key `key` in an association list (JS objects have unique
keys, so first = only). -/
def lookupField : List (String × Json) → String → Option Json
  | [], _ => none
  | (k, v) :: rest, key => if k = key then some v else lookupField rest key

/-- JavaScript property access `j[k]`: `some` for a present key of an object,
`none` (undefined) otherwise. -/
def getField : Json → String → Option Json
  | .obj fs, k => lookupField fs k
  | _, _ => none

/-- JavaScript truthiness of a JSON value. -/
def truthy : Json → Bool
  | .null => false
  | .bool b => b
  | .num q => q != 0
  | .str s => s != ""
  | .arr _ => true
  | .obj _ => true

/-- Truthiness of `result.ok`, as tested by `if (result.ok)` in
`formatResult` (an absent key reads as `undefined`, which is falsy). -/
def okTruthy (result : Json) : Bool :=
  match getField result "ok" with
  | some v => truthy v
  | none => false

/-- Decimal rendering of a JavaScript number that is an integer; non-integer
rationals fall back to Lean's `Rat` rendering (no claim depends on it). -/
def ratToJsString (q : Rat) : String :=
  if q.den = 1 then toString q.num else toString q

mutual

/-- JavaScript string coercion `String(v)` of a JSON value. -/
def jsToString : Json → String
  | .null => "null"
  | .bool b => if b then "true" else "false"
  | .num q => ratToJsString q
  | .str s => s
  | .arr xs => jsToStringList xs
  | .obj _ => "[object Object]"

/-- Array `toString`: elements joined by commas. -/
def jsToStringList : List Json → String
  | [] => ""
  | [x] => jsToString x
  | x :: y :: ys => jsToString x ++ "," ++ jsToStringList (y :: ys)

end

/-- Lower-case hexadecimal digit, used in `\uXXXX` escapes. -/
def hexDigitLower (n : Nat) : Char :=
  if n < 10 then Char.ofNat (48 + n) else Char.ofNat (87 + n)

/-- Upper-case hexadecimal digit, used in percent-encoding. -/
def hexDigitUpper (n : Nat) : Char :=
  if n < 10 then Char.ofNat (48 + n) else Char.ofNat (55 + n)

/-- Escaping of one character inside a JSON string literal, following
`JSON.stringify`. -/
def escChar (c : Char) : String :=
  if c = Char.ofNat 34 then "\\\""
  else if c = Char.ofNat 92 then "\\\\"
  else if c = Char.ofNat 8 then "\\b"
  else if c = Char.ofNat 9 then "\\t"
  else if c = Char.ofNat 10 then "\\n"
  else if c = Char.ofNat 12 then "\\f"
  else if c = Char.ofNat 13 then "\\r"
  else if c.toNat < 32 then
    "\\u00" ++ String.mk [hexDigitLower (c.toNat / 16), hexDigitLower (c.toNat % 16)]
  else String.singleton c

/-- A JSON string literal with its quotes, following `JSON.stringify`. -/
def escString (s : String) : String :=
  "\"" ++ String.join (s.data.map escChar) ++ "\""

/-- A run of `n` spaces. -/
def spaces (n : Nat) : String :=
  String.mk (List.replicate n (Char.ofNat 32))

mutual

/-- Rendering of `JSON.stringify(v, null, 2)` at indentation `ind`. -/
def stringifyAux : Nat → Json → String
  | _, .null => "null"
  | _, .bool b => if b then "true" else "false"
  | _, .num q => ratToJsString q
  | _, .str s => escString s
  | _, .arr [] => "[]"
  | ind, .arr (x :: xs) =>
      "[\n" ++ stringifyItems (ind + 2) x xs ++ "\n" ++ spaces ind ++ "]"
  | _, .obj [] => "\x7b\x7d"
  | ind, .obj (f :: fs) =>
      "\x7b\n" ++ stringifyEntries (ind + 2) f fs ++ "\n" ++ spaces ind ++ "\x7d"
termination_by _ j => sizeOf j
decreasing_by all_goals (simp_wf; try omega)

/-- Comma-and-newline separated array items at indentation `ind`. -/
def stringifyItems : Nat → Json → List Json → String
  | ind, x, [] => spaces ind ++ stringifyAux ind x
  | ind, x, y :: ys =>
      spaces ind ++ stringifyAux ind x ++ ",\n" ++ stringifyItems ind y ys
termination_by _ x xs => sizeOf x + sizeOf xs
decreasing_by all_goals (simp_wf; try omega)

/-- Comma-and-newline separated object entries at indentation `ind`. -/
def stringifyEntries : Nat → (String × Json) → List (String × Json) → String
  | ind, (k, v), [] => spaces ind ++ escString k ++ ": " ++ stringifyAux ind v
  | ind, (k, v), f :: fs =>
      spaces ind ++ escString k ++ ": " ++ stringifyAux ind v ++ ",\n" ++
        stringifyEntries ind f fs
termination_by _ f fs => sizeOf f + sizeOf fs
decreasing_by all_goals (simp_wf; try omega)

end

/-- The serialization `JSON.stringify(v, null, 2)` used by every handler when
building the text payload of a tool result. -/
def Json.stringify (j : Json) : String := stringifyAux 0 j

/-- Percent-encoding of one UTF-8 byte, upper-case hex. -/
def percentByte (b : UInt8) : String :=
  "%" ++ String.mk [hexDigitUpper (b.toNat / 16), hexDigitUpper (b.toNat % 16)]

/-- Characters `encodeURIComponent` leaves unescaped:
letters, digits, and `- _ . ! ~ * ( )` plus the apostrophe. -/
def isUriUnreserved (c : Char) : Bool :=
  c.isAlphanum || c ∈ ['-', '_', '.', '!', '~', '*', Char.ofNat 39, '(', ')']

/-- Encoding of one character under `encodeURIComponent`. -/
def encodeUriChar (c : Char) : String :=
  if isUriUnreserved c then String.singleton c
  else String.join (((String.singleton c).toUTF8.toList).map percentByte)

/-- JavaScript `encodeURIComponent`. -/
def encodeURIComponent (s : String) : String :=
  String.join (s.data.map encodeUriChar)

/-- Characters `URLSearchParams` serialization leaves unescaped:
letters, digits, and `* - . _`. -/
def isFormSafe (c : Char) : Bool :=
  c.isAlphanum || c ∈ ['*', '-', '.', '_']

/-- Encoding of one character under `application/x-www-form-urlencoded`
(space becomes `+`). -/
def encodeFormChar (c : Char) : String :=
  if c = Char.ofNat 32 then "+"
  else if isFormSafe c then String.singleton c
  else String.join (((String.singleton c).toUTF8.toList).map percentByte)

/-- Encoding of a string under `application/x-www-form-urlencoded`. -/
def encodeForm (s : String) : String :=
  String.join (s.data.map encodeFormChar)

/-- `URLSearchParams.toString()` over the pairs inserted by `params.set`. -/
def searchParamsToString (ps : List (String × String)) : String :=
  String.intercalate "&" (ps.map fun p => encodeForm p.1 ++ "=" ++ encodeForm p.2)

/-- One outbound HTTP request as assembled by the adapter. -/
structure Request where
  method : String
  path : String
  headers : List (String × String)
  body : Option Json

/-- Outcome of one `fetch` round trip: either the response body parsed as
JSON, or a rejection (`fetch` network error, or `res.json()` on a non-JSON
body) that makes the handler's promise reject. -/
inductive FetchResult where
  | fail : FetchResult
  | json : Json → FetchResult

/-- The error string returned by `apiCall` when `INSUMER_API_KEY` is empty. -/
def missingKeyMsg : String :=
  "INSUMER_API_KEY environment variable is not set. Get a free key at https://insumermodel.com/developers/"

/-- The local envelope `{ ok: false, error: missingKeyMsg }` that `apiCall`
returns without touching the network when no API key is configured. -/
def missingKeyEnv : Json :=
  Json.obj [("ok", Json.bool false), ("error", Json.str missingKeyMsg)]

/-- The headers attached to every authenticated request. -/
def authedRequest (apiKey : String) : String × String × Option Json → Request
  | (method, path, body) =>
    { method, path,
      headers := [("Content-Type", "application/json"), ("X-API-Key", apiKey)],
      body }

/-- The shared helper `apiCall(method, path, body?)`.  The network is the
oracle `net`; the returned list records the outbound requests issued.
`Except.error ()` models the promise rejecting (exception propagating out of
`apiCall`, which contains no try/catch). -/
def apiCall (apiKey : String) (net : Request → FetchResult)
    (method path : String) (body : Option Json) :
    Except Unit Json × List Request :=
  if apiKey = "" then
    (Except.ok missingKeyEnv, [])
  else
    let req := authedRequest apiKey (method, path, body)
    match net req with
    | .fail => (Except.error (), [req])
    | .json j => (Except.ok j, [req])

/-- The tool result shape handed to the MCP runtime: a list of
`(type, text)` content items, and the optional `isError` flag. -/
structure McpResult where
  content : List (String × String)
  isError : Option Bool
deriving Repr

/-- The shared `formatResult` helper: serializes the whole envelope into one
text content item, setting `isError: true` exactly when `result.ok` is
falsy. -/
def formatResult (result : Json) : McpResult :=
  if okTruthy result then
    { content := [("text", Json.stringify result)], isError := none }
  else
    { content := [("text", Json.stringify result)], isError := some true }

/-- One invocation of an authenticated tool after validation: the handler
computes `(method, path, body)` from the validated arguments, awaits
`apiCall`, and applies `formatResult` to the envelope. -/
def runTool (run : Json → String × String × Option Json)
    (apiKey : String) (net : Request → FetchResult) (args : Json) :
    Except Unit McpResult × List Request :=
  match run args with
  | (method, path, body) =>
    let r := apiCall apiKey net method path body
    (r.1.map formatResult, r.2)

/-! ### zod schema combinators

Each zod schema is embedded as a partial function `Json → Option Json`
returning the parsed (possibly transformed) value; `none` is a validation
failure, which the MCP runtime reports without invoking the handler.
`z.object` strips unknown keys and rebuilds the output in shape order. -/

/-- A required object field: present and valid, contributing one binding. -/
def reqField (fs : List (String × Json)) (k : String)
    (p : Json → Option Json) : Option (List (String × Json)) :=
  match lookupField fs k with
  | some v => (p v).map fun w => [(k, w)]
  | none => none

/-- An optional object field (`.optional()`): absent contributes nothing;
present must be valid. -/
def optField (fs : List (String × Json)) (k : String)
    (p : Json → Option Json) : Option (List (String × Json)) :=
  match lookupField fs k with
  | some v => (p v).map fun w => [(k, w)]
  | none => some []

/-- The schema `z.string()`. -/
def parseString : Json → Option Json
  | .str s => some (.str s)
  | _ => none

/-- The schema `z.string().max(n)`. -/
def parseStringMax (n : Nat) : Json → Option Json
  | .str s => if s.length ≤ n then some (.str s) else none
  | _ => none

/-- The schema `z.string().min(lo).max(hi)`. -/
def parseStringLen (lo hi : Nat) : Json → Option Json
  | .str s => if lo ≤ s.length ∧ s.length ≤ hi then some (.str s) else none
  | _ => none

/-- The schema `z.number()`. -/
def parseNumber : Json → Option Json
  | .num q => some (.num q)
  | _ => none

/-- The schema `z.number().positive()`. -/
def parsePositive : Json → Option Json
  | .num q => if 0 < q then some (.num q) else none
  | _ => none

/-- The schema `z.number().int()`. -/
def parseInt' : Json → Option Json
  | .num q => if q.den = 1 then some (.num q) else none
  | _ => none

/-- The schema `z.number().int().min(lo).max(hi)`. -/
def parseIntRange (lo hi : Int) : Json → Option Json
  | .num q => if q.den = 1 ∧ lo ≤ q.num ∧ q.num ≤ hi then some (.num q) else none
  | _ => none

/-- The schema `z.number().int().min(lo)`. -/
def parseIntMin (lo : Int) : Json → Option Json
  | .num q => if q.den = 1 ∧ lo ≤ q.num then some (.num q) else none
  | _ => none

/-- The schema `z.boolean()`. -/
def parseBool : Json → Option Json
  | .bool b => some (.bool b)
  | _ => none

/-- The schema `z.enum(vals)` over string literals. -/
def parseEnum (vals : List String) : Json → Option Json
  | .str s => if s ∈ vals then some (.str s) else none
  | _ => none

/-- The schema `z.union([z.string(), z.number()])` (the `amount` field of
`insumer_confirm_payment`). -/
def parseStringOrNumber : Json → Option Json
  | .str s => some (.str s)
  | .num q => some (.num q)
  | _ => none

/-- The schema `z.array(p).min(lo).max(hi)`. -/
def parseArrayBounded (p : Json → Option Json) (lo hi : Nat) :
    Json → Option Json
  | .arr xs =>
      if lo ≤ xs.length ∧ xs.length ≤ hi then
        (xs.mapM p).map Json.arr
      else none
  | _ => none

/-- The schema `z.array(p)` with no length bounds. -/
def parseArrayAny (p : Json → Option Json) : Json → Option Json
  | .arr xs => (xs.mapM p).map Json.arr
  | _ => none

/-! ### Chain identifier schemas -/

/-- The schema `ChainId`: `z.union([z.number().int(), z.literal("solana"),
z.literal("xrpl")])`, used for the per-condition `chainId` of
`insumer_attest`. -/
def parseChainId : Json → Option Json
  | .num q => if q.den = 1 then some (.num q) else none
  | .str s => if s = "solana" ∨ s = "xrpl" then some (.str s) else none
  | _ => none

/-- The integer ids accepted by `OnboardingChainId`'s number branch. -/
def onboardingChainNums : List Int :=
  [1, 56, 8453, 43114, 137, 42161, 10, 88888, 1868, 98866, 480]

/-- The schema `OnboardingChainId`: a union of the decimal-string enum
(transformed via `Number`), the refined integer, and the `solana` / `xrpl`
literals. -/
def parseOnboardingChainId : Json → Option Json
  | .str s =>
      if s = "1" then some (.num 1)
      else if s = "56" then some (.num 56)
      else if s = "8453" then some (.num 8453)
      else if s = "43114" then some (.num 43114)
      else if s = "137" then some (.num 137)
      else if s = "42161" then some (.num 42161)
      else if s = "10" then some (.num 10)
      else if s = "88888" then some (.num 88888)
      else if s = "1868" then some (.num 1868)
      else if s = "98866" then some (.num 98866)
      else if s = "480" then some (.num 480)
      else if s = "solana" ∨ s = "xrpl" then some (.str s)
      else none
  | .num q =>
      if q.den = 1 ∧ q.num ∈ onboardingChainNums then some (.num q) else none
  | _ => none

/-- The integer ids accepted by `UsdcChainId`'s number branch. -/
def usdcChainNums : List Int := [1, 8453, 137, 42161, 10, 56, 43114]

/-- The schema `UsdcChainId`: a union of the decimal-string enum (transformed
via `Number`), the refined integer, and the `solana` / `xrpl` literals. -/
def parseUsdcChainId : Json → Option Json
  | .str s =>
      if s = "1" then some (.num 1)
      else if s = "8453" then some (.num 8453)
      else if s = "137" then some (.num 137)
      else if s = "42161" then some (.num 42161)
      else if s = "10" then some (.num 10)
      else if s = "56" then some (.num 56)
      else if s = "43114" then some (.num 43114)
      else if s = "solana" ∨ s = "xrpl" then some (.str s)
      else none
  | .num q =>
      if q.den = 1 ∧ q.num ∈ usdcChainNums then some (.num q) else none
  | _ => none

/-! ### Composite schemas -/

/-- The schema `TierSchema`: tier name, positive threshold, 1-50 integer
discount. -/
def parseTier : Json → Option Json
  | .obj fs => do
      let a ← reqField fs "name" (parseStringMax 30)
      let b ← reqField fs "threshold" parsePositive
      let c ← reqField fs "discount" (parseIntRange 1 50)
      pure (Json.obj (a ++ b ++ c))
  | _ => none

/-- The schema `TokenConfigSchema` with its 1-4 `tiers`. -/
def parseTokenConfig : Json → Option Json
  | .obj fs => do
      let a ← reqField fs "symbol" (parseStringMax 10)
      let b ← reqField fs "chainId" parseOnboardingChainId
      let c ← reqField fs "contractAddress" parseString
      let d ← optField fs "decimals" (parseIntRange 0 18)
      let e ← optField fs "currency" (parseStringMax 3)
      let f ← reqField fs "tiers" (parseArrayBounded parseTier 1 4)
      pure (Json.obj (a ++ b ++ c ++ d ++ e ++ f))
  | _ => none

/-- The schema `NftCollectionSchema`. -/
def parseNftCollection : Json → Option Json
  | .obj fs => do
      let a ← reqField fs "name" (parseStringMax 50)
      let b ← reqField fs "contractAddress" parseString
      let c ← optField fs "taxon" parseInt'
      let d ← reqField fs "chainId" parseOnboardingChainId
      let e ← reqField fs "discount" (parseIntRange 1 50)
      pure (Json.obj (a ++ b ++ c ++ d ++ e))
  | _ => none

/-- One element of the `conditions` array of `insumer_attest`. -/
def parseCondition : Json → Option Json
  | .obj fs => do
      let a ← reqField fs "type"
        (parseEnum ["token_balance", "nft_ownership", "eas_attestation", "farcaster_id"])
      let b ← optField fs "contractAddress" parseString
      let c ← optField fs "chainId" parseChainId
      let d ← optField fs "threshold" parseNumber
      let e ← optField fs "decimals" (parseIntRange 0 18)
      let f ← optField fs "label" (parseStringMax 100)
      let g ← optField fs "schemaId" parseString
      let h ← optField fs "attester" parseString
      let i ← optField fs "indexer" parseString
      let j ← optField fs "template"
        (parseEnum ["coinbase_verified_account", "coinbase_verified_country",
          "coinbase_one", "gitcoin_passport_score", "gitcoin_passport_active"])
      pure (Json.obj (a ++ b ++ c ++ d ++ e ++ f ++ g ++ h ++ i ++ j))
  | _ => none

/-- One element of the `wallets` array of `insumer_batch_wallet_trust`. -/
def parseBatchWalletEntry : Json → Option Json
  | .obj fs => do
      let a ← reqField fs "wallet" parseString
      let b ← optField fs "solanaWallet" parseString
      let c ← optField fs "xrplWallet" parseString
      pure (Json.obj (a ++ b ++ c))
  | _ => none

/-! ### Tool input validators (the per-tool zod shapes) -/

/-- The input shape of `insumer_attest`: optional wallets, optional
`proof: "merkle"`, and 1-10 `conditions`. -/
def validate_attest : Json → Option Json
  | .obj fs => do
      let a ← optField fs "wallet" parseString
      let b ← optField fs "solanaWallet" parseString
      let c ← optField fs "xrplWallet" parseString
      let d ← optField fs "proof" (parseEnum ["merkle"])
      let e ← reqField fs "conditions" (parseArrayBounded parseCondition 1 10)
      pure (Json.obj (a ++ b ++ c ++ d ++ e))
  | _ => none

/-- The input shape of `insumer_batch_wallet_trust`: 1-10 `wallets` entries
and optional `proof: "merkle"`. -/
def validate_batch_wallet_trust : Json → Option Json
  | .obj fs => do
      let a ← reqField fs "wallets" (parseArrayBounded parseBatchWalletEntry 1 10)
      let b ← optField fs "proof" (parseEnum ["merkle"])
      pure (Json.obj (a ++ b))
  | _ => none

/-- The input shape of `insumer_list_merchants`: optional `token`,
`verified`, `limit` (1-200 integer) and `offset` (nonnegative integer). -/
def validate_list_merchants : Json → Option Json
  | .obj fs => do
      let a ← optField fs "token" parseString
      let b ← optField fs "verified" (parseEnum ["true", "false"])
      let c ← optField fs "limit" (parseIntRange 1 200)
      let d ← optField fs "offset" (parseIntMin 0)
      pure (Json.obj (a ++ b ++ c ++ d))
  | _ => none

/-- The input shape of `insumer_configure_nfts`: merchant `id` and 0-4
`nftCollections`. -/
def validate_configure_nfts : Json → Option Json
  | .obj fs => do
      let a ← reqField fs "id" parseString
      let b ← reqField fs "nftCollections" (parseArrayBounded parseNftCollection 0 4)
      pure (Json.obj (a ++ b))
  | _ => none

/-- The input shape of `insumer_confirm_payment`: free-form `code` string,
`txHash`, `UsdcChainId` and string-or-number `amount`. -/
def validate_confirm_payment : Json → Option Json
  | .obj fs => do
      let a ← reqField fs "code" parseString
      let b ← reqField fs "txHash" parseString
      let c ← reqField fs "chainId" parseUsdcChainId
      let d ← reqField fs "amount" parseStringOrNumber
      pure (Json.obj (a ++ b ++ c ++ d))
  | _ => none

/-- Whether a character matches the regex class `[A-Z0-9]`. -/
def isCodeChar (c : Char) : Bool :=
  (Char.ofNat 65 ≤ c ∧ c ≤ Char.ofNat 90) ∨ (Char.ofNat 48 ≤ c ∧ c ≤ Char.ofNat 57)

/-- Whether a string matches the anchored regex `^INSR-[A-Z0-9]{5}$` of
`insumer_validate_code`. -/
def isValidCode (s : String) : Bool :=
  s.data.length == 10 &&
    s.data.take 5 == ['I', 'N', 'S', 'R', '-'] &&
    (s.data.drop 5).all isCodeChar

/-- The schema `z.string().regex(/^INSR-[A-Z0-9]{5}$/)`. -/
def parseCodeString : Json → Option Json
  | .str s => if isValidCode s then some (.str s) else none
  | _ => none

/-- The input shape of `insumer_validate_code`: a single pattern-checked
`code`. -/
def validate_validate_code : Json → Option Json
  | .obj fs => do
      let a ← reqField fs "code" parseCodeString
      pure (Json.obj a)
  | _ => none

/-! ### Request construction per tool

Each `run_*` maps the validated arguments to the `(method, path, body)`
passed to `apiCall`, exactly as the corresponding handler does. -/

/-- JavaScript string coercion of `args[k]` (an absent key coerces like
`undefined`). -/
def getStrField (args : Json) (k : String) : String :=
  match getField args k with
  | some v => jsToString v
  | none => "undefined"

/-- The rest-object of `const { id, ...body } = args`: every binding except
`id`, in order. -/
def removeField : Json → String → Json
  | .obj fs, k => .obj (fs.filter fun p => p.1 != k)
  | j, _ => j

def run_attest (args : Json) : String × String × Option Json :=
  ("POST", "/attest", some args)

def run_wallet_trust (args : Json) : String × String × Option Json :=
  ("POST", "/trust", some args)

def run_batch_wallet_trust (args : Json) : String × String × Option Json :=
  ("POST", "/trust/batch", some args)

def run_verify (args : Json) : String × String × Option Json :=
  ("POST", "/verify", some args)

def run_list_merchants (args : Json) : String × String × Option Json :=
  let ps : List (String × String) :=
    (match getField args "token" with
      | some v => if truthy v then [("token", jsToString v)] else []
      | none => [])
    ++ (match getField args "verified" with
      | some v => if truthy v then [("verified", jsToString v)] else []
      | none => [])
    ++ (match getField args "limit" with
      | some v => [("limit", jsToString v)]
      | none => [])
    ++ (match getField args "offset" with
      | some v => [("offset", jsToString v)]
      | none => [])
  let qs := searchParamsToString ps
  ("GET", "/merchants" ++ (if qs = "" then "" else "?" ++ qs), none)

def run_get_merchant (args : Json) : String × String × Option Json :=
  ("GET", "/merchants/" ++ encodeURIComponent (getStrField args "id"), none)

def run_list_tokens (args : Json) : String × String × Option Json :=
  let ps : List (String × String) :=
    (match getField args "chain" with
      | some v => [("chain", jsToString v)]
      | none => [])
    ++ (match getField args "symbol" with
      | some v => if truthy v then [("symbol", jsToString v)] else []
      | none => [])
    ++ (match getField args "type" with
      | some v => if truthy v then [("type", jsToString v)] else []
      | none => [])
  let qs := searchParamsToString ps
  ("GET", "/tokens" ++ (if qs = "" then "" else "?" ++ qs), none)

def run_check_discount (args : Json) : String × String × Option Json :=
  let ps : List (String × String) :=
    [("merchant", getStrField args "merchant")]
    ++ (match getField args "wallet" with
      | some v => if truthy v then [("wallet", jsToString v)] else []
      | none => [])
    ++ (match getField args "solanaWallet" with
      | some v => if truthy v then [("solanaWallet", jsToString v)] else []
      | none => [])
    ++ (match getField args "xrplWallet" with
      | some v => if truthy v then [("xrplWallet", jsToString v)] else []
      | none => [])
  ("GET", "/discount/check?" ++ searchParamsToString ps, none)

def run_credits (_args : Json) : String × String × Option Json :=
  ("GET", "/credits", none)

def run_buy_credits (args : Json) : String × String × Option Json :=
  ("POST", "/credits/buy", some args)

def run_confirm_payment (args : Json) : String × String × Option Json :=
  ("POST", "/payment/confirm", some args)

def run_create_merchant (args : Json) : String × String × Option Json :=
  ("POST", "/merchants", some args)

def run_merchant_status (args : Json) : String × String × Option Json :=
  ("GET", "/merchants/" ++ encodeURIComponent (getStrField args "id") ++ "/status", none)

def run_configure_tokens (args : Json) : String × String × Option Json :=
  ("PUT", "/merchants/" ++ encodeURIComponent (getStrField args "id") ++ "/tokens",
    some (removeField args "id"))

def run_configure_nfts (args : Json) : String × String × Option Json :=
  ("PUT", "/merchants/" ++ encodeURIComponent (getStrField args "id") ++ "/nfts",
    some (removeField args "id"))

def run_configure_settings (args : Json) : String × String × Option Json :=
  ("PUT", "/merchants/" ++ encodeURIComponent (getStrField args "id") ++ "/settings",
    some (removeField args "id"))

def run_publish_directory (args : Json) : String × String × Option Json :=
  ("POST", "/merchants/" ++ encodeURIComponent (getStrField args "id") ++ "/directory",
    some (Json.obj []))

def run_buy_merchant_credits (args : Json) : String × String × Option Json :=
  ("POST", "/merchants/" ++ encodeURIComponent (getStrField args "id") ++ "/credits",
    some (removeField args "id"))

def run_request_domain_verification (args : Json) : String × String × Option Json :=
  ("POST",
    "/merchants/" ++ encodeURIComponent (getStrField args "id") ++ "/domain-verification",
    some (removeField args "id"))

def run_verify_domain (args : Json) : String × String × Option Json :=
  ("PUT",
    "/merchants/" ++ encodeURIComponent (getStrField args "id") ++ "/domain-verification",
    none)

def run_acp_discount (args : Json) : String × String × Option Json :=
  ("POST", "/acp/discount", some args)

def run_ucp_discount (args : Json) : String × String × Option Json :=
  ("POST", "/ucp/discount", some args)

/-- Every tool whose handler routes through `apiCall` (all tools except the
three no-auth ones: `insumer_jwks`, `insumer_compliance_templates`,
`insumer_validate_code`), with its request builder. -/
def authedTools : List (String × (Json → String × String × Option Json)) :=
  [("insumer_attest", run_attest),
   ("insumer_wallet_trust", run_wallet_trust),
   ("insumer_batch_wallet_trust", run_batch_wallet_trust),
   ("insumer_verify", run_verify),
   ("insumer_list_merchants", run_list_merchants),
   ("insumer_get_merchant", run_get_merchant),
   ("insumer_list_tokens", run_list_tokens),
   ("insumer_check_discount", run_check_discount),
   ("insumer_credits", run_credits),
   ("insumer_buy_credits", run_buy_credits),
   ("insumer_confirm_payment", run_confirm_payment),
   ("insumer_create_merchant", run_create_merchant),
   ("insumer_merchant_status", run_merchant_status),
   ("insumer_configure_tokens", run_configure_tokens),
   ("insumer_configure_nfts", run_configure_nfts),
   ("insumer_configure_settings", run_configure_settings),
   ("insumer_publish_directory", run_publish_directory),
   ("insumer_buy_merchant_credits", run_buy_merchant_credits),
   ("insumer_request_domain_verification", run_request_domain_verification),
   ("insumer_verify_domain", run_verify_domain),
   ("insumer_acp_discount", run_acp_discount),
   ("insumer_ucp_discount", run_ucp_discount)]

/-! ### The three no-auth handlers

These bypass `apiCall` entirely: they call `fetch` directly, read nothing
from the API key, and attach no `X-API-Key` header. -/

/-- The request issued by `insumer_jwks`: a bare `fetch` of `/jwks`. -/
def jwksReq : Request :=
  { method := "GET", path := "/jwks", headers := [], body := none }

/-- The `insumer_jwks` handler.  The `apiKey` argument records the
configured key, which the handler never reads; the relayed result never sets
`isError`. -/
def invoke_jwks (_apiKey : String) (net : Request → FetchResult) :
    Except Unit McpResult × List Request :=
  match net jwksReq with
  | .fail => (Except.error (), [jwksReq])
  | .json j =>
      (Except.ok { content := [("text", Json.stringify j)], isError := none }, [jwksReq])

/-- The request issued by `insumer_compliance_templates`. -/
def templatesReq : Request :=
  { method := "GET", path := "/compliance/templates",
    headers := [("Accept", "application/json")], body := none }

/-- The `insumer_compliance_templates` handler: direct `fetch`, then
`formatResult` on the parsed envelope. -/
def invoke_compliance_templates (_apiKey : String) (net : Request → FetchResult) :
    Except Unit McpResult × List Request :=
  match net templatesReq with
  | .fail => (Except.error (), [templatesReq])
  | .json j => (Except.ok (formatResult j), [templatesReq])

/-- The request issued by `insumer_validate_code` for a given code. -/
def codeReq (code : String) : Request :=
  { method := "GET", path := "/codes/" ++ encodeURIComponent code,
    headers := [], body := none }

/-- The `insumer_validate_code` handler body (after validation): a bare
`fetch` of the code-lookup path; the relayed result never sets `isError`. -/
def run_validate_code (args : Json) (net : Request → FetchResult) :
    Except Unit McpResult × List Request :=
  let req := codeReq (getStrField args "code")
  match net req with
  | .fail => (Except.error (), [req])
  | .json j =>
      (Except.ok { content := [("text", Json.stringify j)], isError := none }, [req])

/-- A full `insumer_validate_code` invocation: validation, then the handler;
`none` is a validation rejection (no network call). -/
def invoke_validate_code (_apiKey : String) (net : Request → FetchResult)
    (raw : Json) : Option (Except Unit McpResult × List Request) :=
  (validate_validate_code raw).map fun v => run_validate_code v net

/-! ### Spec-side value sets and envelope constructors used by the theorems -/

/-- An upstream envelope whose first field is the boolean `ok` flag. -/
def mkEnv (ok : Bool) (rest : List (String × Json)) : Json :=
  Json.obj (("ok", Json.bool ok) :: rest)

/-- The allowed-value set of the general verification chain type, stated as
a flat set: any integer, or the literals `solana` / `xrpl`. -/
def chainIdAllowed : Json → Bool
  | .num q => q.den == 1
  | .str s => s == "solana" || s == "xrpl"
  | _ => false

/-- The allowed-value set of the onboarding chain type, stated as a flat
set: one of the eleven supported ids (as a number or its decimal string), or
`solana` / `xrpl`. -/
def onboardingAllowed : Json → Bool
  | .num q =>
      q.den == 1 &&
        (q.num == 1 || q.num == 56 || q.num == 8453 || q.num == 43114 ||
          q.num == 137 || q.num == 42161 || q.num == 10 || q.num == 88888 ||
          q.num == 1868 || q.num == 98866 || q.num == 480)
  | .str s =>
      s == "1" || s == "56" || s == "8453" || s == "43114" || s == "137" ||
        s == "42161" || s == "10" || s == "88888" || s == "1868" ||
        s == "98866" || s == "480" || s == "solana" || s == "xrpl"
  | _ => false

/-- The allowed-value set of the stablecoin-settlement chain type, stated as
a flat set: one of the seven supported ids (as a number or its decimal
string), or `solana` / `xrpl`. -/
def usdcAllowed : Json → Bool
  | .num q =>
      q.den == 1 &&
        (q.num == 1 || q.num == 8453 || q.num == 137 || q.num == 42161 ||
          q.num == 10 || q.num == 56 || q.num == 43114)
  | .str s =>
      s == "1" || s == "8453" || s == "137" || s == "42161" || s == "10" ||
        s == "56" || s == "43114" || s == "solana" || s == "xrpl"
  | _ => false

/-- A minimal valid element of the `conditions` array of `insumer_attest`. -/
def condMinimal : Json := Json.obj [("type", Json.str "token_balance")]

/-- A minimal valid element of the `wallets` array of
`insumer_batch_wallet_trust`. -/
def walletEntryMinimal : Json := Json.obj [("wallet", Json.str "0xabc")]

/-- A minimal valid element of the `nftCollections` array of
`insumer_configure_nfts`. -/
def nftMinimal : Json :=
  Json.obj [("name", Json.str "n"), ("contractAddress", Json.str "0x"),
    ("chainId", Json.num 1), ("discount", Json.num 10)]

/-- A minimal valid element of the `tiers` array of `TokenConfigSchema`. -/
def tierMinimal : Json :=
  Json.obj [("name", Json.str "Gold"), ("threshold", Json.num 1),
    ("discount", Json.num 10)]

/-- A token configuration with the given `tiers` array and all other
required fields valid. -/
def tokenConfigWith (ts : List Json) : Json :=
  Json.obj [("symbol", Json.str "UNI"), ("chainId", Json.num 1),
    ("contractAddress", Json.str "0x"), ("tiers", Json.arr ts)]

/-! ### Claim theorems -/

/-- C1: every tool that routes through `apiCall`, invoked with no API key
configured, returns the local failure envelope (with `isError` set) whose
error text names the missing `INSUMER_API_KEY` credential and the signup
location `https://insumermodel.com/developers/`, and issues no outbound
network request. -/
theorem missing_key_short_circuits
    (t : String × (Json → String × String × Option Json)) (_ht : t ∈ authedTools)
    (args : Json) (net : Request → FetchResult) :
    runTool t.2 "" net args = (Except.ok (formatResult missingKeyEnv), [])
    ∧ (formatResult missingKeyEnv).isError = some true
    ∧ missingKeyEnv = Json.obj [("ok", Json.bool false), ("error", Json.str missingKeyMsg)]
    ∧ (∃ a b, missingKeyMsg = a ++ "INSUMER_API_KEY" ++ b)
    ∧ (∃ a b, missingKeyMsg = a ++ "https://insumermodel.com/developers/" ++ b) := by
  refine ⟨?_, by decide, rfl,
    ⟨"", " environment variable is not set. Get a free key at https://insumermodel.com/developers/",
      by decide⟩,
    ⟨"INSUMER_API_KEY environment variable is not set. Get a free key at ", "", by decide⟩⟩
  unfold runTool
  rcases t.2 args with ⟨m, p, b⟩
  simp [apiCall, Except.map]

/-- Witness for C1 at the first authenticated tool and an always-failing
network that is in fact never consulted. -/
theorem missing_key_short_circuits_witness :
    runTool run_attest "" (fun _ => FetchResult.fail) (Json.obj []) =
      (Except.ok (formatResult missingKeyEnv), []) :=
  (missing_key_short_circuits ("insumer_attest", run_attest) (List.Mem.head _)
    (Json.obj []) (fun _ => FetchResult.fail)).1

/-- Helper: the shared `formatResult` helper relays a parsed upstream
envelope verbatim as the serialized text payload; an `ok: true` envelope
carries no `isError` flag and an `ok: false` envelope carries
`isError: true`. -/
theorem formatResult_relay (ok : Bool) (rest : List (String × Json)) :
    (formatResult (mkEnv ok rest)).content =
      [("text", Json.stringify (mkEnv ok rest))]
    ∧ (formatResult (mkEnv ok rest)).isError = (if ok then none else some true) := by
  cases ok <;>
    simp [formatResult, mkEnv, okTruthy, getField, lookupField, truthy]

/-- C2 counterexample: `insumer_validate_code` (cited by the claim) relays a
failing upstream envelope `{ok: false}` with no `isError` flag at all — its
handler bypasses `formatResult` — so not every operation flags an `ok:false`
envelope as an error, and neither of the claim's two outcomes is signaled. -/
theorem okfalse_relay_unflagged_cex :
    invoke_validate_code "" (fun _ => FetchResult.json (mkEnv false []))
        (Json.obj [("code", Json.str "INSR-AB12C")]) =
      some (Except.ok { content := [("text", Json.stringify (mkEnv false []))],
                        isError := none },
            [codeReq "INSR-AB12C"]) := rfl

/-- C2 amended: every operation that relays through `formatResult` (the 22
`apiCall`-routed tools and `insumer_compliance_templates`) returns the
parsed envelope serialized verbatim into the text payload, with no `isError`
flag when `ok` is `true` and `isError: true` when `ok` is `false` — exactly
one of the two outcomes per invocation; `insumer_jwks` and
`insumer_validate_code`, however, relay the body verbatim without ever
setting `isError`, even for an `ok:false` envelope. -/
theorem envelope_relay_per_operation
    (t : String × (Json → String × String × Option Json)) (_ht : t ∈ authedTools)
    (args : Json) (apiKey : String) (hk : ¬ apiKey = "")
    (net : Request → FetchResult) (ok : Bool) (rest : List (String × Json))
    (code : String) :
    (net (authedRequest apiKey (t.2 args)) = FetchResult.json (mkEnv ok rest) →
      runTool t.2 apiKey net args =
        (Except.ok { content := [("text", Json.stringify (mkEnv ok rest))],
                     isError := if ok then none else some true },
         [authedRequest apiKey (t.2 args)]))
    ∧ (net templatesReq = FetchResult.json (mkEnv ok rest) →
      (invoke_compliance_templates apiKey net).1 =
        Except.ok { content := [("text", Json.stringify (mkEnv ok rest))],
                    isError := if ok then none else some true })
    ∧ (net jwksReq = FetchResult.json (mkEnv ok rest) →
      (invoke_jwks apiKey net).1 =
        Except.ok { content := [("text", Json.stringify (mkEnv ok rest))],
                    isError := none })
    ∧ (net (codeReq code) = FetchResult.json (mkEnv ok rest) →
      (run_validate_code (Json.obj [("code", Json.str code)]) net).1 =
        Except.ok { content := [("text", Json.stringify (mkEnv ok rest))],
                    isError := none }) := by
  have hfmt : formatResult (mkEnv ok rest) =
      { content := [("text", Json.stringify (mkEnv ok rest))],
        isError := if ok then none else some true } := by
    cases ok <;> simp [formatResult, mkEnv, okTruthy, getField, lookupField, truthy]
  refine ⟨?_, ?_, ?_, ?_⟩
  · intro hj
    unfold runTool
    rcases h : t.2 args with ⟨m, p, b⟩
    rw [h] at hj
    simp [apiCall, hk, hj, Except.map, hfmt]
  · intro hj
    simp [invoke_compliance_templates, hj, hfmt]
  · intro hj
    simp [invoke_jwks, hj]
  · intro hj
    unfold run_validate_code
    simp only [show getStrField (Json.obj [("code", Json.str code)]) "code" = code
      from rfl]
    simp [hj]

/-- Witness for C2's amended theorem: a concrete `ok:false` envelope is
relayed by `insumer_attest` with `isError` set. -/
theorem envelope_relay_per_operation_witness :
    runTool run_attest "k" (fun _ => FetchResult.json (mkEnv false []))
        (Json.obj []) =
      (Except.ok { content := [("text", Json.stringify (mkEnv false []))],
                   isError := some true },
       [authedRequest "k" (run_attest (Json.obj []))]) :=
  (envelope_relay_per_operation ("insumer_attest", run_attest) (List.Mem.head _)
    (Json.obj []) "k" (by decide) (fun _ => FetchResult.json (mkEnv false []))
    false [] "INSR-AB12C").1 rfl

/-- C3 counterexample: with a key configured and a failing transport (or a
non-JSON body), the invocation of `insumer_credits` does not return an
error-flagged result envelope — the handler's promise rejects
(`Except.error`), because `apiCall` contains no try/catch. -/
theorem transport_failure_throws_cex :
    (runTool run_credits "k" (fun _ => FetchResult.fail) (Json.obj [])).1 =
      Except.error () := rfl

/-- C3 amended: for every operation — the 22 `apiCall`-routed tools as well
as the three no-auth handlers `insumer_jwks`, `insumer_compliance_templates`
and `insumer_validate_code` — when the upstream body parses as JSON the
invocation returns a result carrying the payload (relayed via `formatResult`
for the `apiCall` tools and `insumer_compliance_templates`, whose `isError`
flag is set exactly when `ok` is falsy; relayed without any `isError` flag
by `insumer_jwks` and `insumer_validate_code`); but when the transport fails
or the body is not JSON, the handler's exception propagates out of the
adapter (no handler has a try/catch) instead of an error-flagged envelope
being returned. -/
theorem upstream_failure_relay
    (t : String × (Json → String × String × Option Json)) (_ht : t ∈ authedTools)
    (args : Json) (apiKey : String) (hk : ¬ apiKey = "")
    (net : Request → FetchResult) (code : String) :
    (net (authedRequest apiKey (t.2 args)) = FetchResult.fail →
      runTool t.2 apiKey net args =
        (Except.error (), [authedRequest apiKey (t.2 args)]))
    ∧ (∀ j, net (authedRequest apiKey (t.2 args)) = FetchResult.json j →
      runTool t.2 apiKey net args =
        (Except.ok (formatResult j), [authedRequest apiKey (t.2 args)]))
    ∧ (net jwksReq = FetchResult.fail →
      invoke_jwks apiKey net = (Except.error (), [jwksReq]))
    ∧ (∀ j, net jwksReq = FetchResult.json j →
      (invoke_jwks apiKey net).1 =
        Except.ok { content := [("text", Json.stringify j)], isError := none })
    ∧ (net templatesReq = FetchResult.fail →
      invoke_compliance_templates apiKey net = (Except.error (), [templatesReq]))
    ∧ (∀ j, net templatesReq = FetchResult.json j →
      (invoke_compliance_templates apiKey net).1 = Except.ok (formatResult j))
    ∧ (net (codeReq code) = FetchResult.fail →
      run_validate_code (Json.obj [("code", Json.str code)]) net =
        (Except.error (), [codeReq code]))
    ∧ (∀ j, net (codeReq code) = FetchResult.json j →
      (run_validate_code (Json.obj [("code", Json.str code)]) net).1 =
        Except.ok { content := [("text", Json.stringify j)], isError := none })
    ∧ (∀ j, (formatResult j).isError = (if okTruthy j then none else some true)) := by
  refine ⟨?_, ?_, ?_, ?_, ?_, ?_, ?_, ?_, ?_⟩
  · intro hf
    unfold runTool
    rcases h : t.2 args with ⟨m, p, b⟩
    rw [h] at hf
    simp [apiCall, hk, hf, Except.map]
  · intro j hj
    unfold runTool
    rcases h : t.2 args with ⟨m, p, b⟩
    rw [h] at hj
    simp [apiCall, hk, hj, Except.map]
  · intro hf
    simp [invoke_jwks, hf]
  · intro j hj
    simp [invoke_jwks, hj]
  · intro hf
    simp [invoke_compliance_templates, hf]
  · intro j hj
    simp [invoke_compliance_templates, hj]
  · intro hf
    unfold run_validate_code
    simp only [show getStrField (Json.obj [("code", Json.str code)]) "code" = code
      from rfl]
    simp [hf]
  · intro j hj
    unfold run_validate_code
    simp only [show getStrField (Json.obj [("code", Json.str code)]) "code" = code
      from rfl]
    simp [hj]
  · intro j
    unfold formatResult
    split <;> rfl

/-- Witness for C3's amended theorem: a concrete failing transport makes the
`insumer_attest` invocation reject. -/
theorem upstream_failure_relay_witness :
    runTool run_attest "k" (fun _ => FetchResult.fail) (Json.obj []) =
      (Except.error (), [authedRequest "k" (run_attest (Json.obj []))]) :=
  (upstream_failure_relay ("insumer_attest", run_attest) (List.Mem.head _)
    (Json.obj []) "k" (by decide) (fun _ => FetchResult.fail) "INSR-AB12C").1 rfl

/-- Helper: the general chain schema accepts exactly the integers and the
two ledger literals. -/
theorem parseChainId_isSome (j : Json) :
    (parseChainId j).isSome = chainIdAllowed j := by
  cases j with
  | num q =>
      simp only [parseChainId, chainIdAllowed]
      split_ifs with h
      · simp [h]
      · simp [h]
  | str s =>
      simp only [parseChainId, chainIdAllowed]
      split_ifs with h
      · rcases h with h | h <;> (subst h; decide)
      · obtain ⟨hA, hB⟩ := not_or.mp h
        simp [hA, hB]
  | null => rfl
  | bool b => rfl
  | arr xs => rfl
  | obj fs => rfl

/-- Helper: the onboarding chain schema accepts exactly the eleven ids (as
numbers or decimal strings) and the two ledger literals. -/
theorem parseOnboardingChainId_isSome (j : Json) :
    (parseOnboardingChainId j).isSome = onboardingAllowed j := by
  cases j with
  | num q =>
      simp only [parseOnboardingChainId, onboardingAllowed, onboardingChainNums]
      by_cases h : q.den = 1 ∧ q.num ∈
          ([1, 56, 8453, 43114, 137, 42161, 10, 88888, 1868, 98866, 480] : List Int)
      · rw [if_pos h]
        obtain ⟨h1, h2⟩ := h
        simp only [List.mem_cons, List.not_mem_nil, or_false] at h2
        simp only [Option.isSome_some, h1, beq_self_eq_true, Bool.true_and]
        rcases h2 with h | h | h | h | h | h | h | h | h | h | h <;> simp [h]
      · rw [if_neg h]
        rcases not_and_or.mp h with h | h
        · simp [beq_eq_false_iff_ne, h]
        · simp only [List.mem_cons, List.not_mem_nil, or_false] at h
          push_neg at h
          obtain ⟨n1, n2, n3, n4, n5, n6, n7, n8, n9, n10, n11⟩ := h
          simp [beq_eq_false_iff_ne, n1, n2, n3, n4, n5, n6, n7, n8, n9, n10, n11]
  | str s =>
      by_cases h1 : s = "1"
      · subst h1; decide
      by_cases h2 : s = "56"
      · subst h2; decide
      by_cases h3 : s = "8453"
      · subst h3; decide
      by_cases h4 : s = "43114"
      · subst h4; decide
      by_cases h5 : s = "137"
      · subst h5; decide
      by_cases h6 : s = "42161"
      · subst h6; decide
      by_cases h7 : s = "10"
      · subst h7; decide
      by_cases h8 : s = "88888"
      · subst h8; decide
      by_cases h9 : s = "1868"
      · subst h9; decide
      by_cases h10 : s = "98866"
      · subst h10; decide
      by_cases h11 : s = "480"
      · subst h11; decide
      by_cases h12 : s = "solana"
      · subst h12; decide
      by_cases h13 : s = "xrpl"
      · subst h13; decide
      simp only [parseOnboardingChainId, onboardingAllowed]
      rw [if_neg h1, if_neg h2, if_neg h3, if_neg h4, if_neg h5, if_neg h6,
        if_neg h7, if_neg h8, if_neg h9, if_neg h10, if_neg h11,
        if_neg (not_or.mpr ⟨h12, h13⟩)]
      simp [beq_eq_false_iff_ne, h1, h2, h3, h4, h5, h6, h7, h8, h9, h10,
        h11, h12, h13]
  | null => rfl
  | bool b => rfl
  | arr xs => rfl
  | obj fs => rfl

/-- Helper: the settlement chain schema accepts exactly the seven ids (as
numbers or decimal strings) and the two ledger literals. -/
theorem parseUsdcChainId_isSome (j : Json) :
    (parseUsdcChainId j).isSome = usdcAllowed j := by
  cases j with
  | num q =>
      simp only [parseUsdcChainId, usdcAllowed, usdcChainNums]
      by_cases h : q.den = 1 ∧ q.num ∈
          ([1, 8453, 137, 42161, 10, 56, 43114] : List Int)
      · rw [if_pos h]
        obtain ⟨h1, h2⟩ := h
        simp only [List.mem_cons, List.not_mem_nil, or_false] at h2
        simp only [Option.isSome_some, h1, beq_self_eq_true, Bool.true_and]
        rcases h2 with h | h | h | h | h | h | h <;> simp [h]
      · rw [if_neg h]
        rcases not_and_or.mp h with h | h
        · simp [beq_eq_false_iff_ne, h]
        · simp only [List.mem_cons, List.not_mem_nil, or_false] at h
          push_neg at h
          obtain ⟨n1, n2, n3, n4, n5, n6, n7⟩ := h
          simp [beq_eq_false_iff_ne, n1, n2, n3, n4, n5, n6, n7]
  | str s =>
      by_cases h1 : s = "1"
      · subst h1; decide
      by_cases h2 : s = "8453"
      · subst h2; decide
      by_cases h3 : s = "137"
      · subst h3; decide
      by_cases h4 : s = "42161"
      · subst h4; decide
      by_cases h5 : s = "10"
      · subst h5; decide
      by_cases h6 : s = "56"
      · subst h6; decide
      by_cases h7 : s = "43114"
      · subst h7; decide
      by_cases h8 : s = "solana"
      · subst h8; decide
      by_cases h9 : s = "xrpl"
      · subst h9; decide
      simp only [parseUsdcChainId, usdcAllowed]
      rw [if_neg h1, if_neg h2, if_neg h3, if_neg h4, if_neg h5, if_neg h6,
        if_neg h7, if_neg (not_or.mpr ⟨h8, h9⟩)]
      simp [beq_eq_false_iff_ne, h1, h2, h3, h4, h5, h6, h7, h8, h9]
  | null => rfl
  | bool b => rfl
  | arr xs => rfl
  | obj fs => rfl

/-- C4 counterexample: the general verification chain schema (`ChainId`,
used in `insumer_attest` conditions) accepts the non-positive integer `-1`,
so it does not accept "exactly a positive integer or `solana`/`xrpl`" and
does not reject every value outside that set. -/
theorem chainId_accepts_nonpositive_cex :
    parseChainId (Json.num (-1)) = some (Json.num (-1)) ∧ ¬(0 < (-1 : Rat)) := by
  exact ⟨rfl, by decide⟩

/-- C4 amended: the general verification chain type accepts exactly an
integer (positive or not) or `solana`/`xrpl`; the onboarding chain type
exactly the eleven listed ids (as numbers or their decimal strings) or
`solana`/`xrpl`; the stablecoin-settlement chain type exactly the seven
listed ids (as numbers or their decimal strings) or `solana`/`xrpl`; each
schema rejects every other value before dispatch. -/
theorem chain_value_sets (j : Json) :
    ((parseChainId j).isSome = chainIdAllowed j)
    ∧ ((parseOnboardingChainId j).isSome = onboardingAllowed j)
    ∧ ((parseUsdcChainId j).isSome = usdcAllowed j) :=
  ⟨parseChainId_isSome j, parseOnboardingChainId_isSome j, parseUsdcChainId_isSome j⟩

/-- Helper: an `insumer_attest` call whose `conditions` array is empty or
longer than 10 fails validation. -/
theorem attest_conditions_out_of_bounds (fs : List (String × Json)) (cs : List Json)
    (hc : lookupField fs "conditions" = some (Json.arr cs))
    (hlen : cs.length = 0 ∨ 10 < cs.length) :
    validate_attest (Json.obj fs) = none := by
  have hr : reqField fs "conditions" (parseArrayBounded parseCondition 1 10) = none := by
    simp only [reqField, hc, parseArrayBounded]
    rw [if_neg (by omega)]
    rfl
  unfold validate_attest
  cases optField fs "wallet" parseString <;>
    cases optField fs "solanaWallet" parseString <;>
    cases optField fs "xrplWallet" parseString <;>
    cases optField fs "proof" (parseEnum ["merkle"]) <;>
    simp [hr]

/-- Helper: an `insumer_batch_wallet_trust` call whose `wallets` array is
empty or longer than 10 fails validation. -/
theorem batch_wallets_out_of_bounds (fs : List (String × Json)) (ws : List Json)
    (hc : lookupField fs "wallets" = some (Json.arr ws))
    (hlen : ws.length = 0 ∨ 10 < ws.length) :
    validate_batch_wallet_trust (Json.obj fs) = none := by
  have hr : reqField fs "wallets" (parseArrayBounded parseBatchWalletEntry 1 10) = none := by
    simp only [reqField, hc, parseArrayBounded]
    rw [if_neg (by omega)]
    rfl
  unfold validate_batch_wallet_trust
  simp [hr]

/-- Helper: an `insumer_configure_nfts` call with more than 4
`nftCollections` fails validation. -/
theorem nft_collections_out_of_bounds (fs : List (String × Json)) (ns : List Json)
    (hc : lookupField fs "nftCollections" = some (Json.arr ns))
    (hlen : 4 < ns.length) :
    validate_configure_nfts (Json.obj fs) = none := by
  have hr : reqField fs "nftCollections"
      (parseArrayBounded parseNftCollection 0 4) = none := by
    simp only [reqField, hc, parseArrayBounded]
    rw [if_neg (by omega)]
    rfl
  unfold validate_configure_nfts
  cases reqField fs "id" parseString <;> simp [hr]

/-- Helper: a token configuration whose `tiers` array is empty or longer
than 4 fails validation. -/
theorem token_tiers_out_of_bounds (fs : List (String × Json)) (ts : List Json)
    (hc : lookupField fs "tiers" = some (Json.arr ts))
    (hlen : ts.length = 0 ∨ 4 < ts.length) :
    parseTokenConfig (Json.obj fs) = none := by
  have hr : reqField fs "tiers" (parseArrayBounded parseTier 1 4) = none := by
    simp only [reqField, hc, parseArrayBounded]
    rw [if_neg (by omega)]
    rfl
  unfold parseTokenConfig
  cases reqField fs "symbol" (parseStringMax 10) <;>
    cases reqField fs "chainId" parseOnboardingChainId <;>
    cases reqField fs "contractAddress" parseString <;>
    cases optField fs "decimals" (parseIntRange 0 18) <;>
    cases optField fs "currency" (parseStringMax 3) <;>
    simp [hr]

/-- Helper: an `insumer_list_merchants` call whose `limit` is below 1 or
above 200 fails validation. -/
theorem merchants_limit_out_of_bounds (fs : List (String × Json)) (q : Rat)
    (hl : lookupField fs "limit" = some (Json.num q))
    (hq : q < 1 ∨ 200 < q) :
    validate_list_merchants (Json.obj fs) = none := by
  have hp : parseIntRange 1 200 (Json.num q) = none := by
    simp only [parseIntRange]
    rw [if_neg]
    rintro ⟨hd, hlo, hhi⟩
    have hnum : (q.num : Rat) = q := (Rat.den_eq_one_iff q).mp hd
    rcases hq with h | h
    · have h1 : (1 : Rat) ≤ (q.num : Rat) := by exact_mod_cast hlo
      rw [hnum] at h1
      linarith
    · have h200 : (q.num : Rat) ≤ (200 : Rat) := by exact_mod_cast hhi
      rw [hnum] at h200
      linarith
  have hr : optField fs "limit" (parseIntRange 1 200) = none := by
    simp only [optField, hl, hp]
    rfl
  unfold validate_list_merchants
  cases optField fs "token" parseString <;>
    cases optField fs "verified" (parseEnum ["true", "false"]) <;>
    simp [hr]

/-- C5: every bounded-count field — `conditions` (1-10), batch `wallets`
(1-10), `nftCollections` (0-4), token `tiers` (1-4) — and the
`insumer_list_merchants` `limit` (1-200) reject inputs below the minimum or
above the maximum before dispatch (in particular `limit: 250` is rejected),
while inputs exactly at a boundary pass validation. -/
theorem bounded_counts_enforced :
    (∀ fs cs, lookupField fs "conditions" = some (Json.arr cs) →
      (cs.length = 0 ∨ 10 < cs.length) → validate_attest (Json.obj fs) = none)
    ∧ (∀ fs ws, lookupField fs "wallets" = some (Json.arr ws) →
      (ws.length = 0 ∨ 10 < ws.length) → validate_batch_wallet_trust (Json.obj fs) = none)
    ∧ (∀ fs ns, lookupField fs "nftCollections" = some (Json.arr ns) →
      4 < ns.length → validate_configure_nfts (Json.obj fs) = none)
    ∧ (∀ fs ts, lookupField fs "tiers" = some (Json.arr ts) →
      (ts.length = 0 ∨ 4 < ts.length) → parseTokenConfig (Json.obj fs) = none)
    ∧ (∀ fs q, lookupField fs "limit" = some (Json.num q) →
      (q < 1 ∨ 200 < q) → validate_list_merchants (Json.obj fs) = none)
    ∧ (validate_attest (Json.obj [("conditions", Json.arr [condMinimal])])).isSome = true
    ∧ (validate_attest (Json.obj
        [("conditions", Json.arr (List.replicate 10 condMinimal))])).isSome = true
    ∧ (validate_batch_wallet_trust (Json.obj
        [("wallets", Json.arr [walletEntryMinimal])])).isSome = true
    ∧ (validate_batch_wallet_trust (Json.obj
        [("wallets", Json.arr (List.replicate 10 walletEntryMinimal))])).isSome = true
    ∧ (validate_configure_nfts (Json.obj
        [("id", Json.str "m"), ("nftCollections", Json.arr [])])).isSome = true
    ∧ (validate_configure_nfts (Json.obj
        [("id", Json.str "m"),
         ("nftCollections", Json.arr (List.replicate 4 nftMinimal))])).isSome = true
    ∧ (parseTokenConfig (tokenConfigWith [tierMinimal])).isSome = true
    ∧ (parseTokenConfig (tokenConfigWith (List.replicate 4 tierMinimal))).isSome = true
    ∧ (validate_list_merchants (Json.obj [("limit", Json.num 1)])).isSome = true
    ∧ (validate_list_merchants (Json.obj [("limit", Json.num 200)])).isSome = true
    ∧ validate_list_merchants
        (Json.obj [("token", Json.str "UNI"), ("limit", Json.num 250)]) = none :=
  ⟨attest_conditions_out_of_bounds, batch_wallets_out_of_bounds,
   nft_collections_out_of_bounds, token_tiers_out_of_bounds,
   merchants_limit_out_of_bounds,
   rfl, rfl, rfl, rfl, rfl, rfl, rfl, rfl, rfl, rfl, rfl⟩

/-- Witness for C5: the spec's scenario `{token: "UNI", limit: 250}` is
rejected before dispatch, via the universal limit-bound conjunct. -/
theorem bounded_counts_enforced_witness :
    validate_list_merchants
      (Json.obj [("token", Json.str "UNI"), ("limit", Json.num 250)]) = none :=
  bounded_counts_enforced.2.2.2.2.1 [("token", Json.str "UNI"), ("limit", Json.num 250)]
    250 rfl (Or.inr (by norm_num))

/-- C6: for every mutating operation whose schema embeds the merchant id in
the path (`insumer_configure_tokens`, `insumer_configure_nfts`,
`insumer_configure_settings`, `insumer_publish_directory`,
`insumer_buy_merchant_credits`, `insumer_request_domain_verification`), the
id appears URL-encoded in the constructed path only, the upstream JSON body
is the validated argument object with the `id` binding removed (all other
fields unchanged, in order), and no `id` key remains in the body. -/
theorem routing_id_path_only (fields : List (String × Json)) (s : String)
    (hid : lookupField fields "id" = some (Json.str s)) :
    run_configure_tokens (Json.obj fields) =
      ("PUT", "/merchants/" ++ encodeURIComponent s ++ "/tokens",
        some (Json.obj (fields.filter fun p => p.1 != "id")))
    ∧ run_configure_nfts (Json.obj fields) =
      ("PUT", "/merchants/" ++ encodeURIComponent s ++ "/nfts",
        some (Json.obj (fields.filter fun p => p.1 != "id")))
    ∧ run_configure_settings (Json.obj fields) =
      ("PUT", "/merchants/" ++ encodeURIComponent s ++ "/settings",
        some (Json.obj (fields.filter fun p => p.1 != "id")))
    ∧ run_publish_directory (Json.obj fields) =
      ("POST", "/merchants/" ++ encodeURIComponent s ++ "/directory",
        some (Json.obj []))
    ∧ run_buy_merchant_credits (Json.obj fields) =
      ("POST", "/merchants/" ++ encodeURIComponent s ++ "/credits",
        some (Json.obj (fields.filter fun p => p.1 != "id")))
    ∧ run_request_domain_verification (Json.obj fields) =
      ("POST", "/merchants/" ++ encodeURIComponent s ++ "/domain-verification",
        some (Json.obj (fields.filter fun p => p.1 != "id")))
    ∧ (∀ p ∈ fields.filter (fun p => p.1 != "id"), p.1 ≠ "id") := by
  refine ⟨?_, ?_, ?_, ?_, ?_, ?_, ?_⟩
  · simp [run_configure_tokens, getStrField, getField, hid, jsToString, removeField]
  · simp [run_configure_nfts, getStrField, getField, hid, jsToString, removeField]
  · simp [run_configure_settings, getStrField, getField, hid, jsToString, removeField]
  · simp [run_publish_directory, getStrField, getField, hid, jsToString]
  · simp [run_buy_merchant_credits, getStrField, getField, hid, jsToString, removeField]
  · simp [run_request_domain_verification, getStrField, getField, hid, jsToString,
      removeField]
  · intro p hp
    rw [List.mem_filter] at hp
    exact bne_iff_ne.mp hp.2

/-- Witness for C6: a concrete `insumer_configure_tokens` call routes
`id: "m1"` into the path and strips it from the body. -/
theorem routing_id_path_only_witness :
    run_configure_tokens (Json.obj [("id", Json.str "m1"), ("ownToken", Json.null)]) =
      ("PUT", "/merchants/m1/tokens", some (Json.obj [("ownToken", Json.null)])) :=
  ((routing_id_path_only [("id", Json.str "m1"), ("ownToken", Json.null)]
    "m1" rfl).1).trans rfl

/-- C7: the three no-auth tools issue their HTTP request and relay the
upstream response even when no API key is configured (the handlers never
read the key); their requests carry no `X-API-Key` header; `insumer_jwks`
and `insumer_validate_code` never set `isError` at all, and
`insumer_compliance_templates` relays `formatResult` of the upstream
envelope — none of them can produce the local credential-missing failure
envelope. -/
theorem noauth_tools_no_key_required
    (apiKey : String) (net : Request → FetchResult) (code : String) :
    ((invoke_jwks "" net).2 = [jwksReq]
      ∧ invoke_jwks apiKey net = invoke_jwks "" net
      ∧ jwksReq.headers.map Prod.fst = []
      ∧ (∀ j, net jwksReq = FetchResult.json j →
          (invoke_jwks "" net).1 =
            Except.ok { content := [("text", Json.stringify j)], isError := none }))
    ∧ ((invoke_compliance_templates "" net).2 = [templatesReq]
      ∧ invoke_compliance_templates apiKey net = invoke_compliance_templates "" net
      ∧ templatesReq.headers.map Prod.fst = ["Accept"]
      ∧ (∀ j, net templatesReq = FetchResult.json j →
          (invoke_compliance_templates "" net).1 = Except.ok (formatResult j)))
    ∧ (isValidCode code = true →
        invoke_validate_code "" net (Json.obj [("code", Json.str code)]) =
          some (run_validate_code (Json.obj [("code", Json.str code)]) net)
        ∧ (codeReq code).headers.map Prod.fst = []
        ∧ (run_validate_code (Json.obj [("code", Json.str code)]) net).2 = [codeReq code]
        ∧ (∀ j, net (codeReq code) = FetchResult.json j →
            (run_validate_code (Json.obj [("code", Json.str code)]) net).1 =
              Except.ok { content := [("text", Json.stringify j)], isError := none })) := by
  refine ⟨⟨?_, rfl, rfl, ?_⟩, ⟨?_, rfl, rfl, ?_⟩, ?_⟩
  · unfold invoke_jwks
    cases net jwksReq <;> rfl
  · intro j hj
    unfold invoke_jwks
    rw [hj]
  · unfold invoke_compliance_templates
    cases net templatesReq <;> rfl
  · intro j hj
    unfold invoke_compliance_templates
    rw [hj]
  · intro hcode
    have hv : validate_validate_code (Json.obj [("code", Json.str code)]) =
        some (Json.obj [("code", Json.str code)]) := by
      simp [validate_validate_code, reqField, lookupField, parseCodeString, hcode]
    refine ⟨by simp [invoke_validate_code, hv], rfl, ?_, ?_⟩
    · unfold run_validate_code
      simp only [show getStrField (Json.obj [("code", Json.str code)]) "code" = code
        from rfl]
      cases hn : net (codeReq code) <;> simp [hn]
    · intro j hj
      unfold run_validate_code
      simp only [show getStrField (Json.obj [("code", Json.str code)]) "code" = code
        from rfl]
      simp [hj]

/-- Witness for C7: with no key configured and a concrete upstream JWKS
document, `insumer_jwks` relays it without an error flag. -/
theorem noauth_tools_no_key_required_witness :
    (invoke_jwks "" (fun _ => FetchResult.json (Json.obj []))).1 =
      Except.ok { content := [("text", Json.stringify (Json.obj []))], isError := none } :=
  ((noauth_tools_no_key_required "" (fun _ => FetchResult.json (Json.obj []))
    "INSR-AB12C").1.2.2.2) (Json.obj []) rfl

/-- C8: `insumer_validate_code` accepts exactly the codes matching
`^INSR-[A-Z0-9]{5}$` (others are rejected before any dispatch), and for an
accepted code such as `INSR-AB12C` it issues a `GET` to the code-lookup path
containing that exact code and relays the upstream response. -/
theorem validate_code_pattern_dispatch (s : String) (net : Request → FetchResult) :
    ((validate_validate_code (Json.obj [("code", Json.str s)])).isSome = isValidCode s)
    ∧ isValidCode "INSR-AB12C" = true
    ∧ isValidCode "INSR-ab12c" = false
    ∧ isValidCode "INSR-AB12" = false
    ∧ isValidCode "INSR-AB12CD" = false
    ∧ isValidCode "XINSR-AB12C" = false
    ∧ (codeReq "INSR-AB12C").method = "GET"
    ∧ (codeReq "INSR-AB12C").path = "/codes/INSR-AB12C"
    ∧ (isValidCode s = false →
        invoke_validate_code "" net (Json.obj [("code", Json.str s)]) = none)
    ∧ invoke_validate_code "" net (Json.obj [("code", Json.str "INSR-AB12C")]) =
        some (run_validate_code (Json.obj [("code", Json.str "INSR-AB12C")]) net)
    ∧ (∀ j, net (codeReq "INSR-AB12C") = FetchResult.json j →
        (run_validate_code (Json.obj [("code", Json.str "INSR-AB12C")]) net).1 =
          Except.ok { content := [("text", Json.stringify j)], isError := none }) := by
  refine ⟨?_, rfl, rfl, rfl, rfl, rfl, rfl, rfl, ?_, ?_, ?_⟩
  · by_cases h : isValidCode s <;>
      simp [validate_validate_code, reqField, lookupField, parseCodeString, h]
  · intro h
    simp [invoke_validate_code, validate_validate_code, reqField, lookupField,
      parseCodeString, h]
  · simp [invoke_validate_code, validate_validate_code, reqField, lookupField,
      parseCodeString]
    rfl
  · intro j hj
    unfold run_validate_code
    simp only [show getStrField (Json.obj [("code", Json.str "INSR-AB12C")]) "code" =
      "INSR-AB12C" from rfl]
    simp [hj]

/-- Witness for C8: a concrete upstream response to the `INSR-AB12C` lookup
is relayed verbatim. -/
theorem validate_code_pattern_dispatch_witness :
    (run_validate_code (Json.obj [("code", Json.str "INSR-AB12C")])
        (fun _ => FetchResult.json (Json.obj []))).1 =
      Except.ok { content := [("text", Json.stringify (Json.obj []))], isError := none } :=
  (validate_code_pattern_dispatch "INSR-AB12C"
    (fun _ => FetchResult.json (Json.obj []))).2.2.2.2.2.2.2.2.2.2
    (Json.obj []) rfl

/-- C9: the `code` field of `insumer_confirm_payment` is validated only as
an arbitrary string — any string (including ones not of the `INSR-XXXXX`
form) passes validation and is forwarded verbatim in the POST body to
`/payment/confirm`, unlike `insumer_validate_code`'s pattern-checked code. -/
theorem confirm_payment_code_freeform (s : String) :
    validate_confirm_payment (Json.obj
        [("code", Json.str s), ("txHash", Json.str "0xabc"),
         ("chainId", Json.num 1), ("amount", Json.num 5)]) =
      some (Json.obj
        [("code", Json.str s), ("txHash", Json.str "0xabc"),
         ("chainId", Json.num 1), ("amount", Json.num 5)])
    ∧ run_confirm_payment (Json.obj
        [("code", Json.str s), ("txHash", Json.str "0xabc"),
         ("chainId", Json.num 1), ("amount", Json.num 5)]) =
      ("POST", "/payment/confirm", some (Json.obj
        [("code", Json.str s), ("txHash", Json.str "0xabc"),
         ("chainId", Json.num 1), ("amount", Json.num 5)]))
    ∧ isValidCode "not-a-discount-code" = false
    ∧ (validate_confirm_payment (Json.obj
        [("code", Json.str "not-a-discount-code"), ("txHash", Json.str "0xabc"),
         ("chainId", Json.num 1), ("amount", Json.num 5)])).isSome = true :=
  ⟨rfl, rfl, rfl, rfl⟩

/-- C10: the onboarding and settlement chain schemas normalize decimal
strings such as `"8453"` to numbers during validation, so every accepted
chain id is forwarded as a number or as one of the literals
`solana`/`xrpl` — never as a numeric string. -/
theorem chain_string_normalization :
    parseOnboardingChainId (Json.str "8453") = some (Json.num 8453)
    ∧ parseUsdcChainId (Json.str "8453") = some (Json.num 8453)
    ∧ (∀ j v, parseOnboardingChainId j = some v →
        (∃ q : Rat, v = Json.num q ∧ q.den = 1) ∨
          v = Json.str "solana" ∨ v = Json.str "xrpl")
    ∧ (∀ j v, parseUsdcChainId j = some v →
        (∃ q : Rat, v = Json.num q ∧ q.den = 1) ∨
          v = Json.str "solana" ∨ v = Json.str "xrpl") := by
  refine ⟨rfl, rfl, ?_, ?_⟩
  · intro j v h
    cases j with
    | num q =>
        simp only [parseOnboardingChainId] at h
        split_ifs at h with hc
        injection h with h
        subst h
        exact Or.inl ⟨q, rfl, hc.1⟩
    | str s =>
        by_cases h1 : s = "1"
        · subst h1
          rw [show parseOnboardingChainId (Json.str "1") =
            some (Json.num 1) from rfl] at h
          injection h with h
          exact Or.inl ⟨1, h.symm, by decide⟩
        by_cases h2 : s = "56"
        · subst h2
          rw [show parseOnboardingChainId (Json.str "56") =
            some (Json.num 56) from rfl] at h
          injection h with h
          exact Or.inl ⟨56, h.symm, by decide⟩
        by_cases h3 : s = "8453"
        · subst h3
          rw [show parseOnboardingChainId (Json.str "8453") =
            some (Json.num 8453) from rfl] at h
          injection h with h
          exact Or.inl ⟨8453, h.symm, by decide⟩
        by_cases h4 : s = "43114"
        · subst h4
          rw [show parseOnboardingChainId (Json.str "43114") =
            some (Json.num 43114) from rfl] at h
          injection h with h
          exact Or.inl ⟨43114, h.symm, by decide⟩
        by_cases h5 : s = "137"
        · subst h5
          rw [show parseOnboardingChainId (Json.str "137") =
            some (Json.num 137) from rfl] at h
          injection h with h
          exact Or.inl ⟨137, h.symm, by decide⟩
        by_cases h6 : s = "42161"
        · subst h6
          rw [show parseOnboardingChainId (Json.str "42161") =
            some (Json.num 42161) from rfl] at h
          injection h with h
          exact Or.inl ⟨42161, h.symm, by decide⟩
        by_cases h7 : s = "10"
        · subst h7
          rw [show parseOnboardingChainId (Json.str "10") =
            some (Json.num 10) from rfl] at h
          injection h with h
          exact Or.inl ⟨10, h.symm, by decide⟩
        by_cases h8 : s = "88888"
        · subst h8
          rw [show parseOnboardingChainId (Json.str "88888") =
            some (Json.num 88888) from rfl] at h
          injection h with h
          exact Or.inl ⟨88888, h.symm, by decide⟩
        by_cases h9 : s = "1868"
        · subst h9
          rw [show parseOnboardingChainId (Json.str "1868") =
            some (Json.num 1868) from rfl] at h
          injection h with h
          exact Or.inl ⟨1868, h.symm, by decide⟩
        by_cases h10 : s = "98866"
        · subst h10
          rw [show parseOnboardingChainId (Json.str "98866") =
            some (Json.num 98866) from rfl] at h
          injection h with h
          exact Or.inl ⟨98866, h.symm, by decide⟩
        by_cases h11 : s = "480"
        · subst h11
          rw [show parseOnboardingChainId (Json.str "480") =
            some (Json.num 480) from rfl] at h
          injection h with h
          exact Or.inl ⟨480, h.symm, by decide⟩
        by_cases h12 : s = "solana"
        · subst h12
          rw [show parseOnboardingChainId (Json.str "solana") =
            some (Json.str "solana") from rfl] at h
          injection h with h
          exact Or.inr (Or.inl h.symm)
        by_cases h13 : s = "xrpl"
        · subst h13
          rw [show parseOnboardingChainId (Json.str "xrpl") =
            some (Json.str "xrpl") from rfl] at h
          injection h with h
          exact Or.inr (Or.inr h.symm)
        simp only [parseOnboardingChainId] at h
        rw [if_neg h1, if_neg h2, if_neg h3, if_neg h4, if_neg h5, if_neg h6,
          if_neg h7, if_neg h8, if_neg h9, if_neg h10, if_neg h11,
          if_neg (not_or.mpr ⟨h12, h13⟩)] at h
        cases h
    | null => cases h
    | bool b => cases h
    | arr xs => cases h
    | obj fs => cases h
  · intro j v h
    cases j with
    | num q =>
        simp only [parseUsdcChainId] at h
        split_ifs at h with hc
        injection h with h
        subst h
        exact Or.inl ⟨q, rfl, hc.1⟩
    | str s =>
        simp only [parseUsdcChainId] at h
        split_ifs at h with h1 h2 h3 h4 h5 h6 h7 h8 <;>
          first
            | (injection h with h; subst h; exact Or.inl ⟨_, rfl, by decide⟩)
            | (injection h with h; subst h;
               rcases h8 with h | h <;> (subst h; simp))
    | null => cases h
    | bool b => cases h
    | arr xs => cases h
    | obj fs => cases h

/-- Witness for C10: the onboarding schema's output on the decimal string
`"1"` is the number `1`, whose denominator is `1`. -/
theorem chain_string_normalization_witness :
    (∃ q : Rat, Json.num 1 = Json.num q ∧ q.den = 1) ∨
      Json.num 1 = Json.str "solana" ∨ Json.num 1 = Json.str "xrpl" :=
  chain_string_normalization.2.2.1 (Json.str "1") (Json.num 1) rfl
